import Mathlib

/-!
Verification of the token-management core of the Andreani proxy service.

The repository is a set of alternative rewrites of one small proxy service.
We refer to the variants by the version string each one reports on `GET /`:

* variant 5.0.0 (src/server.js, first file): direct-REST login, private quote API;
* variant 8.1.0 (src/server.js, second file, and src/unnamed/part_002, which is
  line-for-line the same logic): Puppeteer browser login with a sentinel token
  fallback, public quote API;
* variant 1.0.0 (src/unnamed/part_000, first file, "Railway"): Puppeteer OAuth2
  login with a `tokenCache` record and a fixed 90-minute lifetime;
* variant 4.0.0 (src/unnamed/part_000, second file, "hybrid"): public quote API
  plus direct-REST `/login` that caches, and `/crear-envio` that takes a token;
* variant 3.0.0 (src/unnamed/part_000, third file): public quote API only;
* variant 7.0.0 (src/unnamed/part_001): Puppeteer login, public quote API.

Times are in milliseconds (`Date.now()`), modelled as `Nat`.  JavaScript
number arithmetic is idealised as exact arithmetic, so the variant 5.0.0
expression `expiresIn * 1000 * 0.9` is modelled as `expiresIn * 900` and
`3600 * 1000 * 0.9` as `3240000`.  JavaScript truthiness of nullable strings
(`null` and `""` falsy) and numbers (`null` and `0` falsy) is modelled
explicitly.
-/

/-- JavaScript truthiness of a nullable string: `null` and `""` are falsy. -/
def strTruthy : Option String → Bool
  | some s => decide (s ≠ "")
  | none => false

/-- The module-level token cache of the variants that keep two nullable
globals `cachedToken` / `tokenExpiry` (variants 5.0.0, 8.1.0, 4.0.0, 7.0.0). -/
structure Cache where
  cachedToken : Option String
  tokenExpiry : Option Nat
deriving DecidableEq, Repr

/-- The cold cache: both globals are `null` (initial value, and the value after
an invalidation). -/
def Cache.empty : Cache := ⟨none, none⟩

/-- The cache guard `cachedToken && tokenExpiry && Date.now() < tokenExpiry`
shared by the `getValidToken` functions of variants 5.0.0, 8.1.0 and 7.0.0,
with JavaScript truthiness made explicit. -/
def cacheHit (st : Cache) (now : Nat) : Bool :=
  match st.cachedToken, st.tokenExpiry with
  | some t, some e => decide (t ≠ "") && decide (e ≠ 0) && decide (now < e)
  | _, _ => false

/-- Outcome of the direct-REST login `POST .../Acceso/login`: on a 2xx reply
the parsed body carries `access_token` and (optionally) `expires_in`;
otherwise the status and raw body. -/
inductive LoginReply where
  | ok (accessToken : String) (expiresIn : Option Nat)
  | err (status : Nat) (body : String)
deriving DecidableEq, Repr

/-- The default `data.expires_in || 5400` of variants 5.0.0 and 4.0.0:
a missing or zero (falsy) `expires_in` falls back to 5400 seconds. -/
def effectiveExpiresIn : Option Nat → Nat
  | some e => if e = 0 then 5400 else e
  | none => 5400

/-- Result of a token-returning routine over the `Cache` globals, together with
the updated globals and the number of backend login calls made. -/
inductive TokenOutcome where
  | ok (token : String) (st : Cache) (logins : Nat)
  | failed (message : String) (st : Cache) (logins : Nat)
deriving DecidableEq, Repr

/-- Number of backend login calls a token acquisition performed. -/
def TokenOutcome.loginCount : TokenOutcome → Nat
  | .ok _ _ n => n
  | .failed _ _ n => n

/-- The cache state left behind by a token acquisition. -/
def TokenOutcome.state : TokenOutcome → Cache
  | .ok _ st _ => st
  | .failed _ st _ => st

/-- Variant 5.0.0 `getValidToken` (src/server.js lines 25-59): cache hit
returns the cached token with no network call; otherwise one direct-REST
login; on 2xx stores the token with
`tokenExpiry = Date.now() + expiresIn * 1000 * 0.9` (modelled exactly as
`now + effectiveExpiresIn * 900`); on failure throws `LOGIN_FAILED` leaving
the cache untouched. -/
def getValidToken_v5 (st : Cache) (now : Nat) (reply : LoginReply) : TokenOutcome :=
  if cacheHit st now then
    .ok (st.cachedToken.getD "") st 0
  else
    match reply with
    | .err _ body => .failed ("LOGIN_FAILED: " ++ body) st 1
    | .ok tok e => .ok tok ⟨some tok, some (now + effectiveExpiresIn e * 900)⟩ 1

/-- Outcome of the browser automation of variant 8.1.0 after the submit step:
either the page still matches the login URL (with an optional inline error
element text), or it left the login page with an optional `localStorage`
token value. -/
inductive BrowserOutcome where
  | stillOnLogin (inlineError : Option String)
  | leftLogin (storageToken : Option String)
deriving DecidableEq, Repr

/-- Variant 8.1.0 `getValidToken` (src/server.js Puppeteer file lines 442-621,
identical in src/unnamed/part_002 lines 61-257): cache hit short-circuits;
otherwise one browser login.  If the browser left the login page, a truthy
`localStorage` token is cached with expiry `Date.now() + 3600 * 1000 * 0.9`
(= `now + 3240000`); with no recoverable token the sentinel
`'authenticated_' + Date.now()` is cached instead with the same expiry.
If still on the login page, the throw is wrapped as `LOGIN_FAILED: ...`. -/
def getValidToken_v8 (st : Cache) (now : Nat) (b : BrowserOutcome) : TokenOutcome :=
  if cacheHit st now then
    .ok (st.cachedToken.getD "") st 0
  else
    match b with
    | .leftLogin t =>
      if strTruthy t then
        .ok (t.getD "") ⟨some (t.getD ""), some (now + 3240000)⟩ 1
      else
        let sentinel := "authenticated_" ++ Nat.repr now
        .ok sentinel ⟨some sentinel, some (now + 3240000)⟩ 1
    | .stillOnLogin e =>
      .failed ("LOGIN_FAILED: " ++ (match e with
        | some msg => "Error en login: " ++ msg
        | none => "Login fallido - sigue en página de login")) st 1

/-- The `tokenCache` record of variant 1.0.0 (src/unnamed/part_000 lines
21-24): nullable `access_token` and `expires_at` fields. -/
structure TokenCache where
  access_token : Option String
  expires_at : Option Nat
deriving DecidableEq, Repr

/-- Result of a variant 1.0.0 token acquisition over the `tokenCache` record. -/
inductive V1Outcome where
  | ok (token : String) (tc : TokenCache) (logins : Nat)
  | failed (tc : TokenCache) (logins : Nat)
deriving DecidableEq, Repr

/-- Number of backend login calls in a variant 1.0.0 acquisition. -/
def V1Outcome.loginCount : V1Outcome → Nat
  | .ok _ _ n => n
  | .failed _ n => n

/-- Variant 1.0.0 `loginAndreani` (src/unnamed/part_000 lines 29-170):
`captured` is the token sniffed from requests / response headers /
`localStorage` / cookies (or `null`).  A falsy capture throws
(`if (!accessToken) throw ...`) leaving `tokenCache` untouched; otherwise the
token is cached with `expires_at = Date.now() + 90 * 60 * 1000`. -/
def loginAndreani_v1 (tc : TokenCache) (now : Nat) (captured : Option String) : V1Outcome :=
  if strTruthy captured then
    let tok := captured.getD ""
    .ok tok ⟨some tok, some (now + 90 * 60 * 1000)⟩ 1
  else
    .failed tc 1

/-- Variant 1.0.0 `getAccessToken` (src/unnamed/part_000 lines 175-185):
cache hit iff `tokenCache.access_token && tokenCache.expires_at > Date.now()`
(note: `null > now` is false in JavaScript, modelled via `getD 0`);
otherwise delegate to `loginAndreani`. -/
def getAccessToken_v1 (tc : TokenCache) (now : Nat) (captured : Option String) : V1Outcome :=
  if strTruthy tc.access_token && decide (tc.expires_at.getD 0 > now) then
    .ok (tc.access_token.getD "") tc 0
  else
    loginAndreani_v1 tc now captured

/-- An HTTP-level handler result: response status, the machine-readable
`error` code of the JSON envelope (`none` on success), the cache left behind,
and the number of backend login calls the request performed. -/
structure HandlerResult where
  status : Nat
  error : Option String
  st : Cache
  logins : Nat
deriving DecidableEq, Repr

/-- Variant 5.0.0 `POST /login` (src/server.js lines 319-349): missing
credentials give 400; a `getValidToken` throw is caught and surfaced as
HTTP 500 with error code `LOGIN_FAILED`; success gives 200. -/
def loginHandler_v5 (st : Cache) (now : Nat) (creds : Bool) (reply : LoginReply) :
    HandlerResult :=
  if !creds then ⟨400, some "CREDENTIALS_REQUIRED", st, 0⟩
  else
    match getValidToken_v5 st now reply with
    | .ok _ st' n => ⟨200, none, st', n⟩
    | .failed _ st' n => ⟨500, some "LOGIN_FAILED", st', n⟩

/-- Variant 8.1.0 `POST /login` (src/server.js Puppeteer file lines 801-830,
identical in src/unnamed/part_002 lines 438-467): the catch branch surfaces
any login failure as HTTP 500 with error code `LOGIN_FAILED`. -/
def loginHandler_v8 (st : Cache) (now : Nat) (creds : Bool) (b : BrowserOutcome) :
    HandlerResult :=
  if !creds then ⟨400, some "CREDENTIALS_REQUIRED", st, 0⟩
  else
    match getValidToken_v8 st now b with
    | .ok _ st' n => ⟨200, none, st', n⟩
    | .failed _ st' n => ⟨500, some "LOGIN_FAILED", st', n⟩

/-- Variant 4.0.0 (hybrid) `POST /login` (src/unnamed/part_000 lines 610-667):
it performs the direct-REST login inline.  On a non-2xx backend reply it
surfaces the backend status with `LOGIN_FAILED`; on success it caches the
token with `tokenExpiry = Date.now() + expiresIn * 1000` — with NO 0.9
safety factor. -/
def loginHandler_v4 (st : Cache) (now : Nat) (creds : Bool) (reply : LoginReply) :
    HandlerResult :=
  if !creds then ⟨400, some "CREDENTIALS_REQUIRED", st, 0⟩
  else
    match reply with
    | .err status _ => ⟨status, some "LOGIN_FAILED", st, 1⟩
    | .ok tok e =>
      ⟨200, none, ⟨some tok, some (now + effectiveExpiresIn e * 1000)⟩, 1⟩

/-- Result of the token-acquisition step at the top of a quote / shipment
handler: a validation error, a token (with the cache and login count), or a
propagated login failure. -/
inductive Acquire where
  | validation (status : Nat) (code : String)
  | token (tok : String) (st : Cache) (logins : Nat)
  | authFailed (message : String) (st : Cache) (logins : Nat)
deriving DecidableEq, Repr

/-- The token-acquisition step shared verbatim by the variant 5.0.0 `/cotizar`
and `/crear-envio` handlers (src/server.js lines 165-179 and 230-243):
`let accessToken = token` from the request body; a truthy body token is used
directly; else missing credentials give 400 `AUTH_REQUIRED`; else
`getValidToken` runs. -/
def acquireToken_v5 (token username password : Option String) (st : Cache) (now : Nat)
    (reply : LoginReply) : Acquire :=
  if strTruthy token then .token (token.getD "") st 0
  else if !(strTruthy username && strTruthy password) then .validation 400 "AUTH_REQUIRED"
  else
    match getValidToken_v5 st now reply with
    | .ok tok st' n => .token tok st' n
    | .failed m st' n => .authFailed m st' n

/-- The same token-acquisition step in the variant 8.1.0 and part_002
`/crear-envio` handlers (src/unnamed/part_002 lines 389-402), around the
Puppeteer `getValidToken`. -/
def acquireToken_v8 (token username password : Option String) (st : Cache) (now : Nat)
    (b : BrowserOutcome) : Acquire :=
  if strTruthy token then .token (token.getD "") st 0
  else if !(strTruthy username && strTruthy password) then .validation 400 "AUTH_REQUIRED"
  else
    match getValidToken_v8 st now b with
    | .ok tok st' n => .token tok st' n
    | .failed m st' n => .authFailed m st' n

/-- A carrier HTTP reply: status code and raw response body. -/
structure CarrierReply where
  status : Nat
  body : String
deriving DecidableEq, Repr

/-- `response.ok` of the Fetch API: status in the 2xx range. -/
def respOk (status : Nat) : Bool := decide (200 ≤ status) && decide (status < 300)

/-- Variant 5.0.0 `POST /crear-envio` (src/server.js lines 216-313): after the
`envio` presence check and token acquisition, the carrier reply is mapped:
2xx to 200; 401 clears both cache globals and returns 401 `TOKEN_EXPIRED`
(lines 262-272); other non-2xx passes the carrier status through as
`ANDREANI_API_ERROR`; a thrown login failure is caught as 500 `SERVER_ERROR`. -/
def crearEnvioHandler_v5 (envioPresent : Bool) (token username password : Option String)
    (st : Cache) (now : Nat) (reply : LoginReply) (carrier : CarrierReply) : HandlerResult :=
  if !envioPresent then ⟨400, some "ENVIO_DATA_REQUIRED", st, 0⟩
  else
    match acquireToken_v5 token username password st now reply with
    | .validation s code => ⟨s, some code, st, 0⟩
    | .authFailed _ st' n => ⟨500, some "SERVER_ERROR", st', n⟩
    | .token _ st' n =>
      if respOk carrier.status then ⟨200, none, st', n⟩
      else if carrier.status = 401 then ⟨401, some "TOKEN_EXPIRED", Cache.empty, n⟩
      else ⟨carrier.status, some "ANDREANI_API_ERROR", st', n⟩

/-- Variant 5.0.0 `POST /cotizar` (src/server.js lines 151-210): params check,
token acquisition, then `cotizarEnvioPrivado`; its thrown `TOKEN_EXPIRED`
(carrier 401) is caught, the cache cleared, and 401 returned (lines 190-203);
other carrier errors and login failures surface as 500 with the thrown
message. -/
def cotizarHandler_v5 (paramsPresent : Bool) (token username password : Option String)
    (st : Cache) (now : Nat) (reply : LoginReply) (carrier : CarrierReply) : HandlerResult :=
  if !paramsPresent then ⟨400, some "PARAMS_REQUIRED", st, 0⟩
  else
    match acquireToken_v5 token username password st now reply with
    | .validation s code => ⟨s, some code, st, 0⟩
    | .authFailed m st' n => ⟨500, some m, st', n⟩
    | .token _ st' n =>
      if respOk carrier.status then ⟨200, none, st', n⟩
      else if carrier.status = 401 then ⟨401, some "TOKEN_EXPIRED", Cache.empty, n⟩
      else ⟨500, some ("HTTP " ++ toString carrier.status ++ ": " ++ carrier.body), st', n⟩

/-- Variant 4.0.0 (hybrid) `POST /crear-envio` (src/unnamed/part_000 lines
514-604): requires a body token (no login path at all); on a carrier 401 it
returns 401 `TOKEN_EXPIRED` WITHOUT touching the cache globals (lines
553-561); other non-2xx passes the carrier status through. -/
def crearEnvioHandler_v4 (envioPresent : Bool) (token : Option String)
    (st : Cache) (carrier : CarrierReply) : HandlerResult :=
  if !strTruthy token then ⟨400, some "TOKEN_REQUIRED", st, 0⟩
  else if !envioPresent then ⟨400, some "ENVIO_DATA_REQUIRED", st, 0⟩
  else if respOk carrier.status then ⟨200, none, st, 0⟩
  else if carrier.status = 401 then ⟨401, some "TOKEN_EXPIRED", st, 0⟩
  else ⟨carrier.status, some "ANDREANI_API_ERROR", st, 0⟩

/-- Variant 8.1.0 `POST /crear-envio` (src/server.js Puppeteer file lines
736-799, identical in src/unnamed/part_002 lines 373-436): token acquisition
(browser login), then `crearEnvio`; the inner function clears both cache
globals on a carrier 401 before throwing `TOKEN_EXPIRED`, which the catch
maps to 401; a thrown `LOGIN_FAILED: ...` maps to 401 `LOGIN_FAILED`; other
carrier errors surface as 500 with the thrown `HTTP status: body` message. -/
def crearEnvioHandler_v8 (envioPresent : Bool) (token username password : Option String)
    (st : Cache) (now : Nat) (b : BrowserOutcome) (carrier : CarrierReply) : HandlerResult :=
  if !envioPresent then ⟨400, some "ENVIO_DATA_REQUIRED", st, 0⟩
  else
    match acquireToken_v8 token username password st now b with
    | .validation s code => ⟨s, some code, st, 0⟩
    | .authFailed _ st' n => ⟨401, some "LOGIN_FAILED", st', n⟩
    | .token _ st' n =>
      if respOk carrier.status then ⟨200, none, st', n⟩
      else if carrier.status = 401 then ⟨401, some "TOKEN_EXPIRED", Cache.empty, n⟩
      else ⟨500, some ("HTTP " ++ toString carrier.status ++ ": " ++ carrier.body), st', n⟩

/-- A variant 1.0.0 handler result over the `tokenCache` record. -/
structure HandlerResult1 where
  status : Nat
  tc : TokenCache
  logins : Nat
deriving DecidableEq, Repr

/-- Variant 1.0.0 `POST /cotizar` (src/unnamed/part_000 lines 275-317): the
body is destructured as `{ username, password, params }` — a `token` field in
the body is never read (the `tokenField` argument below is deliberately
unused, mirroring that).  After the credential and params checks it always
calls `getAccessToken`, which logs in on a cache miss. -/
def cotizarHandler_v1 (paramsPresent : Bool) (username password tokenField : Option String)
    (tc : TokenCache) (now : Nat) (captured : Option String) : HandlerResult1 :=
  let _ := tokenField
  if !(strTruthy username && strTruthy password) then ⟨400, tc, 0⟩
  else if !paramsPresent then ⟨400, tc, 0⟩
  else
    match getAccessToken_v1 tc now captured with
    | .ok _ tc' n => ⟨200, tc', n⟩
    | .failed tc' n => ⟨500, tc', n⟩

/-- JavaScript `String.prototype.startsWith`, modelled over the character
list of the string. -/
def jsStartsWith (s p : String) : Bool := p.data.isPrefixOf s.data

/-- The `Authorization` header built by `crearEnvio` in the 8.1.0 variants
(src/server.js Puppeteer file lines 677-708, src/unnamed/part_002 lines
313-345): present, as `Bearer <token>`, unless the token starts with the
sentinel prefix `authenticated_`. -/
def crearEnvioAuthHeader_v8 (token : String) : Option String :=
  if jsStartsWith token "authenticated_" then none
  else some ("Bearer " ++ token)

/-- The `Authorization` header built by `crearEnvio` in variant 7.0.0
(src/unnamed/part_001 lines 193-219): always present, with no sentinel
check. -/
def crearEnvioAuthHeader_v7 (token : String) : Option String :=
  some ("Bearer " ++ token)

/-- The sixteen lowercase hexadecimal digit characters, in value order. -/
def hexDigits : List Char := "0123456789abcdef".data

/-- `v.toString(16)` for a nibble value: the lowercase hexadecimal digit. -/
def hexDigit (n : Nat) : Char := hexDigits.getD n '?'

/-- The template string of `generateGuid`, as a character list. -/
def guidTemplate : List Char := "xxxxxxxx-xxxx-4xxx-yxxx-xxxxxxxxxxxx".data

/-- The replacement loop of `generateGuid`: each `x` or `y` consumes one draw
`r = Math.random() * 16 | 0` (a value in `Fin 16`) from the stream `rand`,
indexed in template order; an `x` becomes `r.toString(16)`, a `y` becomes
`(r & 0x3 | 0x8).toString(16)`; every other character is kept. -/
def guidReplace (rand : Nat → Fin 16) : List Char → Nat → List Char
  | [], _ => []
  | c :: cs, i =>
    if c = 'x' then hexDigit (rand i).val :: guidReplace rand cs (i + 1)
    else if c = 'y' then
      hexDigit ((rand i).val &&& 3 ||| 8) :: guidReplace rand cs (i + 1)
    else c :: guidReplace rand cs i

/-- `generateGuid` (src/server.js lines 135-141 and 854-860,
src/unnamed/part_000 lines 463-469 and 780-786, src/unnamed/part_001 lines
387-393, src/unnamed/part_002 lines 500-506 — identical in all variants),
over an explicit stream of random draws. -/
def generateGuid (rand : Nat → Fin 16) : String := ⟨guidReplace rand guidTemplate 0⟩

/-- An inbound parcel (`bultos` array element) of a quote request.  Numeric
fields are idealised as rationals so that the grams-to-kilograms division is
exact. -/
structure Bulto where
  altoCm : ℚ
  anchoCm : ℚ
  largoCm : ℚ
  peso : ℚ
  valorDeclarado : ℚ
deriving DecidableEq, Repr

/-- A parcel of the outbound public-quote request (`bultos` element sent to
the public tariff API).  The JavaScript stringifies each numeric field with
`.toString()`; the model keeps the numeric values, which is what the claims
are about. -/
structure BultoCotizador where
  itemId : String
  altoCm : ℚ
  anchoCm : ℚ
  largoCm : ℚ
  peso : ℚ
  unidad : String
  valorDeclarado : ℚ
deriving DecidableEq, Repr

/-- The public-API parcel builder, identical in variants 3.0.0, 4.0.0, 7.0.0
and 8.1.0 (e.g. src/unnamed/part_000 lines 735-744): dimensions pass
through, `peso: (bulto.peso / 1000).toString()` converts grams to kilograms,
`unidad: 'kg'`. -/
def buildBultoPublico (guid : String) (b : Bulto) : BultoCotizador :=
  { itemId := guid, altoCm := b.altoCm, anchoCm := b.anchoCm, largoCm := b.largoCm,
    peso := b.peso / 1000, unidad := "kg", valorDeclarado := b.valorDeclarado }

/-- A parcel of the outbound private-quote request (`paquetes` element of
variant 5.0.0 `cotizarEnvioPrivado`). -/
structure PaquetePrivado where
  itemId : String
  alto : ℚ
  ancho : ℚ
  largo : ℚ
  peso : ℚ
  valorDeclarado : ℚ
  cantidadDeBultos : Nat
deriving DecidableEq, Repr

/-- The private-API parcel builder of variant 5.0.0 `cotizarEnvioPrivado`
(src/server.js lines 83-91): `peso: bulto.peso` passes the weight through
unchanged — there is no division by 1000. -/
def buildPaquetePrivado (guid : String) (b : Bulto) : PaquetePrivado :=
  { itemId := guid, alto := b.altoCm, ancho := b.anchoCm, largo := b.largoCm,
    peso := b.peso, valorDeclarado := b.valorDeclarado, cantidadDeBultos := 1 }

/-- Each `generateGuid()` call consumes 31 draws (30 `x` and 1 `y`), so the
parcel at position `k` of a `.map` draws from the block starting at `31 * k`
of the global stream. -/
def itemRand (rand : Nat → Fin 16) (k : Nat) : Nat → Fin 16 :=
  fun i => rand (31 * k + i)

/-- The `params.bultos.map(bulto => ({ itemId: generateGuid(), ... }))` of the
public-quote builders, with the GUID of the parcel at position `k` drawn from
the 31-draw block `31 * k` of the stream. -/
def buildBultosPublico (rand : Nat → Fin 16) : Nat → List Bulto → List BultoCotizador
  | _, [] => []
  | k, b :: bs =>
    buildBultoPublico (generateGuid (itemRand rand k)) b :: buildBultosPublico rand (k + 1) bs

/-- Program counter of one `getValidToken` caller in the interleaving model:
it has not yet run its cache check, or it has issued a login `fetch` and is
suspended at the `await`, or it returned a token, or its login threw. -/
inductive CallerPC where
  | ready
  | awaitingLogin
  | finished (tok : String)
  | errored
deriving DecidableEq, Repr

/-- State of the process while several `getValidToken` calls are in flight:
the shared cache globals, the total number of backend login calls issued,
and one program counter per caller. -/
structure ConcState where
  cache : Cache
  logins : Nat
  pcs : List CallerPC
deriving DecidableEq, Repr

/-- A scheduler event: caller `i` runs its synchronous segment up to the
login `fetch` (the cache check, variant 5.0.0 lines 27-43), or caller `i`'s
login `fetch` resolves and the continuation (lines 44-58) runs.  Node's
single-threaded event loop makes each segment atomic; every `await` is a
suspension point. -/
inductive ConcEvent where
  | check (i : Nat) (now : Nat)
  | finish (i : Nat) (now : Nat) (reply : LoginReply)
deriving DecidableEq, Repr

/-- One scheduler step of the interleaving semantics of variant 5.0.0
`getValidToken`: a `check` by a ready caller either completes from a valid
cache or issues a backend login (incrementing the login count) and suspends;
a `finish` of a suspended caller writes the cache on success (or throws,
leaving it untouched) and completes.  Events for callers not in the right
state are ignored. -/
def concStep (s : ConcState) (e : ConcEvent) : ConcState :=
  match e with
  | .check i now =>
    match s.pcs[i]? with
    | some .ready =>
      if cacheHit s.cache now then
        { s with pcs := s.pcs.set i (.finished (s.cache.cachedToken.getD "")) }
      else
        { cache := s.cache, logins := s.logins + 1, pcs := s.pcs.set i .awaitingLogin }
    | _ => s
  | .finish i now reply =>
    match s.pcs[i]? with
    | some .awaitingLogin =>
      match reply with
      | .err _ _ => { s with pcs := s.pcs.set i .errored }
      | .ok tok e =>
        { cache := ⟨some tok, some (now + effectiveExpiresIn e * 900)⟩,
          logins := s.logins,
          pcs := s.pcs.set i (.finished tok) }
    | _ => s

/-- Run a schedule of events from a state. -/
def concRun (s : ConcState) (es : List ConcEvent) : ConcState := es.foldl concStep s

/-- Initial state for `n` concurrent `getValidToken` callers over an empty
cache. -/
def concInit (n : Nat) : ConcState := ⟨Cache.empty, 0, List.replicate n .ready⟩

/-- The schedule in which all `n` callers run their cache check (at time `t`)
before any login resolves — the overlap the spec's single-flight property is
about. -/
def allChecksSchedule (n : Nat) (t : Nat) : List ConcEvent :=
  (List.range n).map (fun i => ConcEvent.check i t)

/-- The version-4 GUID shape asserted for `generateGuid` output: 36 characters,
hyphens at (0-based) positions 8, 13, 18 and 23, lowercase hexadecimal digits
everywhere else, the literal `4` at position 14, and a digit from
`{8, 9, a, b}` at position 19. -/
def guidShape (s : String) : Prop :=
  s.data.length = 36 ∧
  (∀ i : Nat, i < 36 →
    (if i = 8 ∨ i = 13 ∨ i = 18 ∨ i = 23 then s.data.getD i ' ' = '-'
     else hexDigits.contains (s.data.getD i ' ') = true)) ∧
  s.data.getD 14 ' ' = '4' ∧
  (s.data.getD 19 ' ' = '8' ∨ s.data.getD 19 ' ' = '9' ∨
    s.data.getD 19 ' ' = 'a' ∨ s.data.getD 19 ' ' = 'b')

/-- A concrete draw stream whose three 31-draw blocks start with the distinct
nibbles 0, 1 and 2. -/
def c8WitnessRand : Nat → Fin 16 :=
  fun i => if i < 31 then 0 else if i < 62 then 1 else 2

/-- Helper: the character list of a generated GUID, written out.  The template
has 30 `x` positions and one `y` position, so draws 0-30 are consumed in
template order, with draw 15 at the `y` position (string index 19). -/
theorem generateGuid_data (rand : Nat → Fin 16) :
    (generateGuid rand).data =
      [hexDigit (rand 0).val, hexDigit (rand 1).val, hexDigit (rand 2).val,
       hexDigit (rand 3).val, hexDigit (rand 4).val, hexDigit (rand 5).val,
       hexDigit (rand 6).val, hexDigit (rand 7).val, '-',
       hexDigit (rand 8).val, hexDigit (rand 9).val, hexDigit (rand 10).val,
       hexDigit (rand 11).val, '-', '4',
       hexDigit (rand 12).val, hexDigit (rand 13).val, hexDigit (rand 14).val, '-',
       hexDigit ((rand 15).val &&& 3 ||| 8),
       hexDigit (rand 16).val, hexDigit (rand 17).val, hexDigit (rand 18).val, '-',
       hexDigit (rand 19).val, hexDigit (rand 20).val, hexDigit (rand 21).val,
       hexDigit (rand 22).val, hexDigit (rand 23).val, hexDigit (rand 24).val,
       hexDigit (rand 25).val, hexDigit (rand 26).val, hexDigit (rand 27).val,
       hexDigit (rand 28).val, hexDigit (rand 29).val, hexDigit (rand 30).val] := rfl

/-- Helper: every `x`-style digit is a lowercase hexadecimal digit. -/
theorem hexDigit_contains : ∀ r : Fin 16, hexDigits.contains (hexDigit r.val) = true := by
  decide

/-- Helper: every `y`-style digit is a lowercase hexadecimal digit. -/
theorem hexDigit_y_contains :
    ∀ r : Fin 16, hexDigits.contains (hexDigit (r.val &&& 3 ||| 8)) = true := by
  decide

/-- Helper: the `y`-style digit `(r & 0x3 | 0x8).toString(16)` is one of
`8`, `9`, `a`, `b`. -/
theorem hexDigit_y_cases :
    ∀ r : Fin 16, hexDigit (r.val &&& 3 ||| 8) = '8' ∨ hexDigit (r.val &&& 3 ||| 8) = '9' ∨
      hexDigit (r.val &&& 3 ||| 8) = 'a' ∨ hexDigit (r.val &&& 3 ||| 8) = 'b' := by
  decide

/-- Helper: `hexDigit` is injective on nibble values. -/
theorem hexDigit_val_inj : ∀ a b : Fin 16, hexDigit a.val = hexDigit b.val → a = b := by
  decide

/-- Helper: a string extended to the right still starts with the original
string (JavaScript `(p + s).startsWith(p)`). -/
theorem jsStartsWith_append (p s : String) : jsStartsWith (p ++ s) p = true := by
  rw [jsStartsWith, String.data_append]
  exact List.isPrefixOf_iff_prefix.mpr (List.prefix_append _ _)

/-- Helper: reading at the boundary index of a block of `k` copies followed by
a nonempty block gives the second block's element. -/
theorem replicateAppendGet {α : Type} (a r : α) :
    ∀ (k m : Nat), 0 < m → (List.replicate k a ++ List.replicate m r)[k]? = some r := by
  intro k
  induction k with
  | zero =>
    intro m hm
    cases m with
    | zero => omega
    | succ m' => simp [List.replicate_succ]
  | succ k ih =>
    intro m hm
    rw [List.replicate_succ, List.cons_append, List.getElem?_cons_succ]
    exact ih m hm

/-- Helper: overwriting the boundary index with the first block's element
grows the first block by one. -/
theorem replicateAppendSet {α : Type} (a r : α) :
    ∀ (k m : Nat), 0 < m →
      (List.replicate k a ++ List.replicate m r).set k a =
        List.replicate (k + 1) a ++ List.replicate (m - 1) r := by
  intro k
  induction k with
  | zero =>
    intro m hm
    cases m with
    | zero => omega
    | succ m' => simp [List.replicate_succ]
  | succ k ih =>
    intro m hm
    rw [List.replicate_succ, List.cons_append, List.set_cons_succ]
    rw [ih m hm]
    simp [List.replicate_succ]

/-- Helper: after the first `k` of `n` ready callers run their cache check
over the empty cache, each has issued its own backend login. -/
theorem concRunChecks (n : Nat) (t : Nat) :
    ∀ k, k ≤ n →
      concRun (concInit n) ((List.range k).map (fun i => ConcEvent.check i t)) =
        ⟨Cache.empty, k,
          List.replicate k CallerPC.awaitingLogin ++ List.replicate (n - k) CallerPC.ready⟩ := by
  intro k
  induction k with
  | zero =>
    intro _
    simp [concRun, concInit]
  | succ k ih =>
    intro hk
    rw [List.range_succ, List.map_append, concRun, List.foldl_append]
    rw [show List.foldl concStep (concInit n) = concRun (concInit n) from rfl]
    rw [ih (by omega)]
    simp only [List.map_cons, List.map_nil, List.foldl_cons, List.foldl_nil]
    rw [concStep]
    rw [replicateAppendGet _ _ k (n - k) (by omega)]
    simp only [cacheHit, Cache.empty]
    rw [replicateAppendSet _ _ k (n - k) (by omega)]
    have hnk : n - k - 1 = n - (k + 1) := by omega
    rw [hnk]
    simp [Cache.empty]

/-- Claim C1, counterexample: the hybrid variant (4.0.0) caches a token too,
but its `POST /login` stores `tokenExpiry = Date.now() + expiresIn * 1000`
with no 0.9 safety factor: a successful direct-REST login at time 0 with
`expires_in = 5400` stores expiry 5400000 ms, not `0.9 * 5400 * 1000 =
4860000` ms, so the expiry rule does not hold in every variant that caches a
token. -/
theorem c1_hybrid_no_safety_factor_cex :
    loginHandler_v4 Cache.empty 0 true (LoginReply.ok "tok" (some 5400)) =
      ⟨200, none, ⟨some "tok", some 5400000⟩, 1⟩ ∧ (5400000 : Nat) ≠ 5400 * 900 := by
  exact ⟨by decide, by decide⟩

/-- Claim C1, amended: in the direct-REST variant (5.0.0), a successful login
returning `expires_in = E` stores `expiresAt = now + 0.9 * E * 1000` and a
`getToken` call at `now + 0.95 * E * 1000` misses the cache and performs a
fresh backend login; but the 0.9 factor does not hold in every caching
variant: the hybrid variant's `/login` stores `now + E * 1000` with no
safety factor, and the Railway variant (1.0.0) stores a fixed 90-minute
lifetime independent of any `expires_in`. -/
theorem c1_expiry_margin_amended :
    (∀ (now : Nat) (tok : String) (E : Nat), E ≠ 0 →
      getValidToken_v5 Cache.empty now (LoginReply.ok tok (some E)) =
        TokenOutcome.ok tok ⟨some tok, some (now + E * 900)⟩ 1) ∧
    (∀ (now : Nat) (tok : String) (E : Nat) (r : LoginReply),
      (getValidToken_v5 ⟨some tok, some (now + E * 900)⟩ (now + E * 950) r).loginCount = 1) ∧
    (∀ (st : Cache) (now : Nat) (tok : String) (E : Nat), E ≠ 0 →
      loginHandler_v4 st now true (LoginReply.ok tok (some E)) =
        ⟨200, none, ⟨some tok, some (now + E * 1000)⟩, 1⟩) ∧
    (∀ (tc : TokenCache) (now : Nat) (tok : String), tok ≠ "" →
      loginAndreani_v1 tc now (some tok) =
        V1Outcome.ok tok ⟨some tok, some (now + 5400000)⟩ 1) := by
  refine ⟨?_, ?_, ?_, ?_⟩
  · intro now tok E hE
    simp [getValidToken_v5, cacheHit, Cache.empty, effectiveExpiresIn, hE]
  · intro now tok E r
    have hlt : ¬ (now + E * 950 < now + E * 900) := by omega
    have hmiss : cacheHit ⟨some tok, some (now + E * 900)⟩ (now + E * 950) = false := by
      simp only [cacheHit]
      rw [decide_eq_false hlt]
      simp
    cases r <;> simp [getValidToken_v5, hmiss, TokenOutcome.loginCount]
  · intro st now tok E hE
    simp [loginHandler_v4, effectiveExpiresIn, hE]
  · intro tc now tok htok
    simp [loginAndreani_v1, strTruthy, htok]

/-- Claim C1, witness: the amended statement at a concrete login (`now = 100`,
`expires_in = 3600`, token `tok`). -/
theorem c1_expiry_margin_amended_witness :
    getValidToken_v5 Cache.empty 100 (LoginReply.ok "tok" (some 3600)) =
        TokenOutcome.ok "tok" ⟨some "tok", some (100 + 3600 * 900)⟩ 1 ∧
      (getValidToken_v5 ⟨some "tok", some (100 + 3600 * 900)⟩ (100 + 3600 * 950)
          (LoginReply.ok "t2" (some 3600))).loginCount = 1 ∧
      loginHandler_v4 Cache.empty 100 true (LoginReply.ok "tok" (some 3600)) =
        ⟨200, none, ⟨some "tok", some (100 + 3600 * 1000)⟩, 1⟩ ∧
      loginAndreani_v1 ⟨none, none⟩ 100 (some "tok") =
        V1Outcome.ok "tok" ⟨some "tok", some (100 + 5400000)⟩ 1 :=
  ⟨c1_expiry_margin_amended.1 100 "tok" 3600 (by decide),
   c1_expiry_margin_amended.2.1 100 "tok" 3600 (LoginReply.ok "t2" (some 3600)),
   c1_expiry_margin_amended.2.2.1 Cache.empty 100 "tok" 3600 (by decide),
   c1_expiry_margin_amended.2.2.2 ⟨none, none⟩ 100 "tok" (by decide)⟩

/-- Claim C2, counterexample: the hybrid variant (4.0.0) exposes
`/crear-envio`, yet on a carrier 401 it returns `TOKEN_EXPIRED` without
clearing the cache: with a cached token in place the handler leaves
`cachedToken`/`tokenExpiry` exactly as they were. -/
theorem c2_hybrid_401_keeps_cache_cex :
    crearEnvioHandler_v4 true (some "tok") ⟨some "cached", some 999999⟩ ⟨401, "Unauthorized"⟩ =
      ⟨401, some "TOKEN_EXPIRED", ⟨some "cached", some 999999⟩, 0⟩ ∧
    (⟨some "cached", some 999999⟩ : Cache) ≠ Cache.empty := by
  exact ⟨by decide, by decide⟩

/-- Claim C2, amended: the 5.0.0 and 8.1.0 (and part_002) `/crear-envio`
handlers do clear both cache globals before returning 401 `TOKEN_EXPIRED`
on a carrier 401 — and a subsequent `getToken` over the empty cache performs
a backend login — but the hybrid variant's `/crear-envio` returns 401
`TOKEN_EXPIRED` with its cache untouched. -/
theorem c2_invalidate_on_401_amended :
    (∀ (tok : String) (u p : Option String) (st : Cache) (now : Nat) (r : LoginReply)
        (carrier : CarrierReply), tok ≠ "" → carrier.status = 401 →
      crearEnvioHandler_v5 true (some tok) u p st now r carrier =
        ⟨401, some "TOKEN_EXPIRED", Cache.empty, 0⟩) ∧
    (∀ (tok : String) (u p : Option String) (st : Cache) (now : Nat) (b : BrowserOutcome)
        (carrier : CarrierReply), tok ≠ "" → carrier.status = 401 →
      crearEnvioHandler_v8 true (some tok) u p st now b carrier =
        ⟨401, some "TOKEN_EXPIRED", Cache.empty, 0⟩) ∧
    (∀ (tok : String) (st : Cache) (carrier : CarrierReply), tok ≠ "" → carrier.status = 401 →
      crearEnvioHandler_v4 true (some tok) st carrier = ⟨401, some "TOKEN_EXPIRED", st, 0⟩) ∧
    (∀ (now : Nat) (r : LoginReply), (getValidToken_v5 Cache.empty now r).loginCount = 1) := by
  refine ⟨?_, ?_, ?_, ?_⟩
  · intro tok u p st now r carrier htok h401
    cases carrier with
    | mk s body =>
      simp only at h401
      subst h401
      simp [crearEnvioHandler_v5, acquireToken_v5, strTruthy, htok, respOk]
  · intro tok u p st now b carrier htok h401
    cases carrier with
    | mk s body =>
      simp only at h401
      subst h401
      simp [crearEnvioHandler_v8, acquireToken_v8, strTruthy, htok, respOk]
  · intro tok st carrier htok h401
    cases carrier with
    | mk s body =>
      simp only at h401
      subst h401
      simp [crearEnvioHandler_v4, strTruthy, htok, respOk]
  · intro now r
    cases r <;> simp [getValidToken_v5, cacheHit, Cache.empty, TokenOutcome.loginCount]

/-- Claim C2, witness: the amended statement at a concrete 401 reply with a
concrete explicit token and a warm cache. -/
theorem c2_invalidate_on_401_amended_witness :
    crearEnvioHandler_v5 true (some "tok") none none ⟨some "c", some 9⟩ 0
        (LoginReply.ok "x" none) ⟨401, "expired"⟩ =
      ⟨401, some "TOKEN_EXPIRED", Cache.empty, 0⟩ ∧
    crearEnvioHandler_v8 true (some "tok") none none ⟨some "c", some 9⟩ 0
        (BrowserOutcome.leftLogin none) ⟨401, "expired"⟩ =
      ⟨401, some "TOKEN_EXPIRED", Cache.empty, 0⟩ ∧
    crearEnvioHandler_v4 true (some "tok") ⟨some "c", some 9⟩ ⟨401, "expired"⟩ =
      ⟨401, some "TOKEN_EXPIRED", ⟨some "c", some 9⟩, 0⟩ ∧
    (getValidToken_v5 Cache.empty 3 (LoginReply.ok "x" none)).loginCount = 1 :=
  ⟨c2_invalidate_on_401_amended.1 "tok" none none ⟨some "c", some 9⟩ 0
      (LoginReply.ok "x" none) ⟨401, "expired"⟩ (by decide) rfl,
   c2_invalidate_on_401_amended.2.1 "tok" none none ⟨some "c", some 9⟩ 0
      (BrowserOutcome.leftLogin none) ⟨401, "expired"⟩ (by decide) rfl,
   c2_invalidate_on_401_amended.2.2.1 "tok" ⟨some "c", some 9⟩ ⟨401, "expired"⟩
      (by decide) rfl,
   c2_invalidate_on_401_amended.2.2.2 3 (LoginReply.ok "x" none)⟩

/-- Claim C3, counterexample: two concurrent `getToken` callers over the empty
cache, both of whose cache checks run before either login resolves (the
overlap the claim is about), issue two backend login calls, not one — even
though both callers end up with the same token.  No variant serializes
concurrent refreshes. -/
theorem c3_concurrent_double_login_cex :
    concRun (concInit 2)
        [ConcEvent.check 0 5, ConcEvent.check 1 5,
         ConcEvent.finish 0 9 (LoginReply.ok "T" (some 3600)),
         ConcEvent.finish 1 9 (LoginReply.ok "T" (some 3600))] =
      ⟨⟨some "T", some 3240009⟩, 2, [CallerPC.finished "T", CallerPC.finished "T"]⟩ ∧
    (2 : Nat) ≠ 1 := by
  exact ⟨by decide, by decide⟩

/-- Claim C3, amended: the code performs no single-flight de-duplication.
For every `n`, in the schedule where all `n` concurrent `getToken` callers
run their cache check over the empty cache before any login resolves, every
caller issues its own backend login: exactly `n` login calls are in flight,
not one. -/
theorem c3_no_single_flight_amended (n : Nat) (t : Nat) :
    concRun (concInit n) (allChecksSchedule n t) =
      ⟨Cache.empty, n, List.replicate n CallerPC.awaitingLogin⟩ := by
  have h := concRunChecks n t n le_rfl
  simpa [allChecksSchedule] using h

/-- Claim C4, counterexample: the Railway variant's `/cotizar` destructures
only `username`/`password`/`params` from the body; a request supplying the
non-empty explicit token `tok123` with an empty cache still performs a
backend login (login count 1), and the supplied token is not the one used. -/
theorem c4_railway_cotizar_ignores_token_cex :
    cotizarHandler_v1 true (some "user") (some "pass") (some "tok123") ⟨none, none⟩ 0
        (some "captured") =
      ⟨200, ⟨some "captured", some 5400000⟩, 1⟩ ∧ (1 : Nat) ≠ 0 := by
  exact ⟨by decide, by decide⟩

/-- Claim C4, amended: in every handler that reads the body's `token` field
(the 5.0.0 `/cotizar` and `/crear-envio`, and the 7.0.0 / 8.1.0 / part_002
`/crear-envio`), a non-empty explicit token short-circuits the
token-acquisition step: no backend login is made and the cache is returned
unchanged.  The Railway variant's `/cotizar`, however, never reads a body
token — its behaviour is identical whatever `token` the body carries — and
it logs in whenever its cache misses. -/
theorem c4_explicit_token_bypass_amended :
    (∀ (t : String) (u p : Option String) (st : Cache) (now : Nat) (r : LoginReply),
      t ≠ "" → acquireToken_v5 (some t) u p st now r = Acquire.token t st 0) ∧
    (∀ (t : String) (u p : Option String) (st : Cache) (now : Nat) (b : BrowserOutcome),
      t ≠ "" → acquireToken_v8 (some t) u p st now b = Acquire.token t st 0) ∧
    (∀ (paramsPresent : Bool) (u p t1 t2 : Option String) (tc : TokenCache) (now : Nat)
        (cap : Option String),
      cotizarHandler_v1 paramsPresent u p t1 tc now cap =
        cotizarHandler_v1 paramsPresent u p t2 tc now cap) := by
  refine ⟨?_, ?_, ?_⟩
  · intro t u p st now r ht
    simp [acquireToken_v5, strTruthy, ht]
  · intro t u p st now b ht
    simp [acquireToken_v8, strTruthy, ht]
  · intro paramsPresent u p t1 t2 tc now cap
    rfl

/-- Claim C4, witness: the amended statement at a concrete non-empty explicit
token over a cold cache. -/
theorem c4_explicit_token_bypass_amended_witness :
    acquireToken_v5 (some "tok") none none Cache.empty 0 (LoginReply.ok "x" none) =
      Acquire.token "tok" Cache.empty 0 ∧
    acquireToken_v8 (some "tok") none none Cache.empty 0 (BrowserOutcome.leftLogin none) =
      Acquire.token "tok" Cache.empty 0 ∧
    cotizarHandler_v1 true (some "u") (some "p") (some "tok") ⟨none, none⟩ 0 (some "c") =
      cotizarHandler_v1 true (some "u") (some "p") none ⟨none, none⟩ 0 (some "c") :=
  ⟨c4_explicit_token_bypass_amended.1 "tok" none none Cache.empty 0
      (LoginReply.ok "x" none) (by decide),
   c4_explicit_token_bypass_amended.2.1 "tok" none none Cache.empty 0
      (BrowserOutcome.leftLogin none) (by decide),
   c4_explicit_token_bypass_amended.2.2 true (some "u") (some "p") (some "tok") none
      ⟨none, none⟩ 0 (some "c")⟩

/-- Claim C5, confirmed: in the direct-REST variant (5.0.0) and the Railway
variant (1.0.0), a first `getToken` call over the empty cache performs
exactly one backend login and caches the token, and a second call made while
`now < expiresAt` (with no intervening invalidation) returns the cached
token with no network login — one backend login in total.  A successful
login is modelled as returning a non-empty token string, matching the
JavaScript truthiness of the cache guard. -/
theorem c5_cache_hit_single_login :
    (∀ (t1 t2 : Nat) (tok : String) (E : Nat) (r2 : LoginReply),
      tok ≠ "" → E ≠ 0 → t2 < t1 + E * 900 →
      getValidToken_v5 Cache.empty t1 (LoginReply.ok tok (some E)) =
          TokenOutcome.ok tok ⟨some tok, some (t1 + E * 900)⟩ 1 ∧
        getValidToken_v5 ⟨some tok, some (t1 + E * 900)⟩ t2 r2 =
          TokenOutcome.ok tok ⟨some tok, some (t1 + E * 900)⟩ 0) ∧
    (∀ (t1 t2 : Nat) (tok : String) (cap2 : Option String),
      tok ≠ "" → t2 < t1 + 5400000 →
      getAccessToken_v1 ⟨none, none⟩ t1 (some tok) =
          V1Outcome.ok tok ⟨some tok, some (t1 + 5400000)⟩ 1 ∧
        getAccessToken_v1 ⟨some tok, some (t1 + 5400000)⟩ t2 cap2 =
          V1Outcome.ok tok ⟨some tok, some (t1 + 5400000)⟩ 0) := by
  refine ⟨?_, ?_⟩
  · intro t1 t2 tok E r2 htok hE h2
    constructor
    · simp [getValidToken_v5, cacheHit, Cache.empty, effectiveExpiresIn, hE]
    · have hhit : cacheHit ⟨some tok, some (t1 + E * 900)⟩ t2 = true := by
        simp [cacheHit, htok, h2, hE]
      simp [getValidToken_v5, hhit]
  · intro t1 t2 tok cap2 htok h2
    constructor
    · simp [getAccessToken_v1, loginAndreani_v1, strTruthy, htok]
    · simp [getAccessToken_v1, strTruthy, htok, h2]

/-- Claim C5, witness: the cache-hit scenario at a concrete login
(`t1 = 0`, `E = 5400`, second call at `t2 = 1000`). -/
theorem c5_cache_hit_single_login_witness :
    (getValidToken_v5 Cache.empty 0 (LoginReply.ok "tok" (some 5400)) =
        TokenOutcome.ok "tok" ⟨some "tok", some (0 + 5400 * 900)⟩ 1 ∧
      getValidToken_v5 ⟨some "tok", some (0 + 5400 * 900)⟩ 1000 (LoginReply.err 500 "down") =
        TokenOutcome.ok "tok" ⟨some "tok", some (0 + 5400 * 900)⟩ 0) ∧
    (getAccessToken_v1 ⟨none, none⟩ 0 (some "tok") =
        V1Outcome.ok "tok" ⟨some "tok", some (0 + 5400000)⟩ 1 ∧
      getAccessToken_v1 ⟨some "tok", some (0 + 5400000)⟩ 1000 none =
        V1Outcome.ok "tok" ⟨some "tok", some (0 + 5400000)⟩ 0) :=
  ⟨c5_cache_hit_single_login.1 0 1000 "tok" 5400 (LoginReply.err 500 "down")
      (by decide) (by decide) (by decide),
   c5_cache_hit_single_login.2 0 1000 "tok" none (by decide) (by decide)⟩

/-- Claim C6, counterexample: the private request builder (5.0.0
`cotizarEnvioPrivado`) passes the parcel weight through unchanged — a parcel
of 500 grams is sent with `peso = 500`, not `500 / 1000` — so the
grams-to-kilograms conversion does not hold in every request-builder shape. -/
theorem c6_private_builder_keeps_grams_cex :
    (buildPaquetePrivado "g" ⟨10, 10, 10, 500, 1000⟩).peso = 500 ∧
    (buildBultoPublico "g" ⟨10, 10, 10, 500, 1000⟩).peso = 500 / 1000 ∧
    (500 : ℚ) ≠ 500 / 1000 := by
  refine ⟨rfl, rfl, by norm_num⟩

/-- Claim C6, amended: the public-API builders (variants 3.0.0, 4.0.0, 7.0.0,
8.1.0) convert grams to kilograms, sending `peso = input / 1000` with
`unidad = 'kg'`; the private builder (5.0.0 `cotizarEnvioPrivado`) sends the
input `peso` unchanged, with no conversion. -/
theorem c6_peso_conversion_amended :
    (∀ (g : String) (b : Bulto),
      (buildBultoPublico g b).peso = b.peso / 1000 ∧ (buildBultoPublico g b).unidad = "kg") ∧
    (∀ (g : String) (b : Bulto), (buildPaquetePrivado g b).peso = b.peso) :=
  ⟨fun _ _ => ⟨rfl, rfl⟩, fun _ _ => rfl⟩

/-- Claim C7, counterexample: a `POST /login` whose direct-REST backend login
fails with a 401 is surfaced by the 5.0.0 handler's catch branch as HTTP
500 (error code `LOGIN_FAILED`), not as HTTP 401. -/
theorem c7_login_failure_http500_cex :
    loginHandler_v5 Cache.empty 0 true (LoginReply.err 401 "Invalid credentials") =
      ⟨500, some "LOGIN_FAILED", Cache.empty, 1⟩ ∧ (500 : Nat) ≠ 401 := by
  exact ⟨by decide, by decide⟩

/-- Claim C7, amended: a failing backend login on `POST /login` is surfaced
as HTTP 500 with error code `LOGIN_FAILED` in the 5.0.0 and 8.1.0 variants
(the hybrid variant instead passes the backend's own status through); HTTP
401 is used for authentication failures on `/crear-envio` (the 8.1.0 catch
maps both a thrown login failure and the carrier's `TOKEN_EXPIRED` to 401). -/
theorem c7_auth_error_status_amended :
    (∀ (st : Cache) (now : Nat) (s : Nat) (body : String), cacheHit st now = false →
      loginHandler_v5 st now true (LoginReply.err s body) =
        ⟨500, some "LOGIN_FAILED", st, 1⟩) ∧
    (∀ (st : Cache) (now : Nat) (ie : Option String), cacheHit st now = false →
      loginHandler_v8 st now true (BrowserOutcome.stillOnLogin ie) =
        ⟨500, some "LOGIN_FAILED", st, 1⟩) ∧
    (∀ (st : Cache) (now : Nat) (s : Nat) (body : String),
      loginHandler_v4 st now true (LoginReply.err s body) = ⟨s, some "LOGIN_FAILED", st, 1⟩) ∧
    (∀ (u p : String) (st : Cache) (now : Nat) (ie : Option String) (carrier : CarrierReply),
      cacheHit st now = false → u ≠ "" → p ≠ "" →
      crearEnvioHandler_v8 true none (some u) (some p) st now
          (BrowserOutcome.stillOnLogin ie) carrier =
        ⟨401, some "LOGIN_FAILED", st, 1⟩) := by
  refine ⟨?_, ?_, ?_, ?_⟩
  · intro st now s body hmiss
    simp [loginHandler_v5, getValidToken_v5, hmiss]
  · intro st now ie hmiss
    simp [loginHandler_v8, getValidToken_v8, hmiss]
  · intro st now s body
    simp [loginHandler_v4]
  · intro u p st now ie carrier hmiss hu hp
    simp [crearEnvioHandler_v8, acquireToken_v8, getValidToken_v8, strTruthy, hmiss, hu, hp]

/-- Claim C7, witness: the amended statement at concrete failing logins. -/
theorem c7_auth_error_status_amended_witness :
    loginHandler_v5 Cache.empty 0 true (LoginReply.err 400 "bad") =
      ⟨500, some "LOGIN_FAILED", Cache.empty, 1⟩ ∧
    loginHandler_v8 Cache.empty 0 true (BrowserOutcome.stillOnLogin none) =
      ⟨500, some "LOGIN_FAILED", Cache.empty, 1⟩ ∧
    loginHandler_v4 Cache.empty 0 true (LoginReply.err 401 "bad") =
      ⟨401, some "LOGIN_FAILED", Cache.empty, 1⟩ ∧
    crearEnvioHandler_v8 true none (some "u") (some "p") Cache.empty 0
        (BrowserOutcome.stillOnLogin none) ⟨200, "ok"⟩ =
      ⟨401, some "LOGIN_FAILED", Cache.empty, 1⟩ :=
  ⟨c7_auth_error_status_amended.1 Cache.empty 0 400 "bad" (by decide),
   c7_auth_error_status_amended.2.1 Cache.empty 0 none (by decide),
   c7_auth_error_status_amended.2.2.1 Cache.empty 0 401 "bad",
   c7_auth_error_status_amended.2.2.2 "u" "p" Cache.empty 0 none ⟨200, "ok"⟩
      (by decide) (by decide) (by decide)⟩

/-- Claim C8, counterexample: the three parcel identifiers are drawn
independently with no uniqueness check, so the draw sequence that returns
nibble 0 on every call produces three identical `itemId` values in the
outbound request — the claimed distinctness does not hold for every possible
sequence of random draws. -/
theorem c8_guid_collision_cex :
    ((buildBultosPublico (fun _ => (0 : Fin 16)) 0
        [⟨10, 10, 10, 500, 1000⟩, ⟨10, 10, 10, 500, 1000⟩, ⟨10, 10, 10, 500, 1000⟩]).map
      BultoCotizador.itemId) =
      ["00000000-0000-4000-8000-000000000000", "00000000-0000-4000-8000-000000000000",
       "00000000-0000-4000-8000-000000000000"] ∧
    ¬ ((buildBultosPublico (fun _ => (0 : Fin 16)) 0
        [⟨10, 10, 10, 500, 1000⟩, ⟨10, 10, 10, 500, 1000⟩, ⟨10, 10, 10, 500, 1000⟩]).map
      BultoCotizador.itemId).Nodup := by
  exact ⟨by decide, by decide⟩

/-- Claim C8, amended: each of the three parcels draws its GUID from its own
31-draw block of the random stream, and the three `itemId` values are
pairwise distinct whenever the blocks render differently — in particular
whenever the first draw of each block differs; distinctness is
overwhelmingly likely but not guaranteed for every draw sequence, since
identical draw blocks yield identical identifiers. -/
theorem c8_parcel_ids_distinct_amended (rand : Nat → Fin 16) (b1 b2 b3 : Bulto)
    (h01 : rand 0 ≠ rand 31) (h02 : rand 0 ≠ rand 62) (h12 : rand 31 ≠ rand 62) :
    ((buildBultosPublico rand 0 [b1, b2, b3]).map BultoCotizador.itemId).Nodup := by
  have hmap : (buildBultosPublico rand 0 [b1, b2, b3]).map BultoCotizador.itemId =
      [generateGuid (itemRand rand 0), generateGuid (itemRand rand 1),
       generateGuid (itemRand rand 2)] := rfl
  rw [hmap]
  have key : ∀ (j k : Nat), rand (31 * j) ≠ rand (31 * k) →
      generateGuid (itemRand rand j) ≠ generateGuid (itemRand rand k) := by
    intro j k hjk h
    apply hjk
    have hd := congrArg String.data h
    rw [generateGuid_data, generateGuid_data] at hd
    injection hd with h0 _
    have hval := hexDigit_val_inj _ _ h0
    simpa [itemRand] using hval
  refine List.nodup_cons.mpr ⟨?_, List.nodup_cons.mpr ⟨?_, List.nodup_singleton _⟩⟩
  · intro hmem
    rcases List.mem_cons.mp hmem with h | h
    · exact key 0 1 (by simpa using h01) h
    · exact key 0 2 (by simpa using h02) (List.mem_singleton.mp h)
  · intro hmem
    exact key 1 2 (by simpa using h12) (List.mem_singleton.mp hmem)

/-- Claim C8, witness: the amended statement at a concrete draw stream whose
three blocks start with distinct nibbles. -/
theorem c8_parcel_ids_distinct_amended_witness :
    (c8WitnessRand 0 ≠ c8WitnessRand 31 ∧ c8WitnessRand 0 ≠ c8WitnessRand 62 ∧
      c8WitnessRand 31 ≠ c8WitnessRand 62) ∧
    ((buildBultosPublico c8WitnessRand 0
        [⟨1, 1, 1, 1, 1⟩, ⟨1, 1, 1, 1, 1⟩, ⟨1, 1, 1, 1, 1⟩]).map
      BultoCotizador.itemId).Nodup :=
  ⟨⟨by decide, by decide, by decide⟩,
   c8_parcel_ids_distinct_amended c8WitnessRand ⟨1, 1, 1, 1, 1⟩ ⟨1, 1, 1, 1, 1⟩
      ⟨1, 1, 1, 1, 1⟩ (by decide) (by decide) (by decide)⟩

/-- Claim C9, counterexample: variant 7.0.0 is a browser-automation variant,
but its `crearEnvio` attaches the `Authorization: Bearer` header
unconditionally — also for a token starting with the sentinel prefix
`authenticated_` — so the `if and only if` does not hold across all
browser-automation variants. -/
theorem c9_v7_header_always_attached_cex :
    jsStartsWith "authenticated_123" "authenticated_" = true ∧
    crearEnvioAuthHeader_v7 "authenticated_123" = some "Bearer authenticated_123" ∧
    crearEnvioAuthHeader_v7 "authenticated_123" ≠ none := by
  exact ⟨by decide, by decide, by decide⟩

/-- Claim C9, amended: in the browser-automation variants that implement the
sentinel (8.1.0 in src/server.js and src/unnamed/part_002), `crearEnvio`
attaches `Authorization: Bearer <token>` if and only if the token does not
start with `authenticated_`; when the browser leaves the login page with no
recoverable token, `getValidToken` returns and caches the sentinel
`'authenticated_' + Date.now()`, and presenting that sentinel omits the
header.  The earlier browser-automation variant 7.0.0 instead always
attaches the header and never synthesizes a sentinel. -/
theorem c9_sentinel_header_amended :
    (∀ tok : String,
      crearEnvioAuthHeader_v8 tok = none ↔ jsStartsWith tok "authenticated_" = true) ∧
    (∀ (st : Cache) (now : Nat), cacheHit st now = false →
      getValidToken_v8 st now (BrowserOutcome.leftLogin none) =
        TokenOutcome.ok ("authenticated_" ++ Nat.repr now)
          ⟨some ("authenticated_" ++ Nat.repr now), some (now + 3240000)⟩ 1) ∧
    (∀ now : Nat, crearEnvioAuthHeader_v8 ("authenticated_" ++ Nat.repr now) = none) ∧
    (∀ tok : String, crearEnvioAuthHeader_v7 tok = some ("Bearer " ++ tok)) := by
  refine ⟨?_, ?_, ?_, ?_⟩
  · intro tok
    by_cases h : jsStartsWith tok "authenticated_" = true <;>
      simp [crearEnvioAuthHeader_v8, h]
  · intro st now hmiss
    simp [getValidToken_v8, hmiss, strTruthy]
  · intro now
    simp [crearEnvioAuthHeader_v8, jsStartsWith_append]
  · intro tok
    rfl

/-- Claim C9, witness: the amended statement at a concrete sentinel synthesis
(`now = 7`) over a cold cache. -/
theorem c9_sentinel_header_amended_witness :
    (crearEnvioAuthHeader_v8 "authenticated_7" = none ↔
      jsStartsWith "authenticated_7" "authenticated_" = true) ∧
    getValidToken_v8 Cache.empty 7 (BrowserOutcome.leftLogin none) =
      TokenOutcome.ok ("authenticated_" ++ Nat.repr 7)
        ⟨some ("authenticated_" ++ Nat.repr 7), some (7 + 3240000)⟩ 1 ∧
    crearEnvioAuthHeader_v8 ("authenticated_" ++ Nat.repr 7) = none ∧
    crearEnvioAuthHeader_v7 "tok" = some ("Bearer " ++ "tok") :=
  ⟨c9_sentinel_header_amended.1 "authenticated_7",
   c9_sentinel_header_amended.2.1 Cache.empty 7 (by decide),
   c9_sentinel_header_amended.2.2.1 7,
   c9_sentinel_header_amended.2.2.2 "tok"⟩

/-- Helper: membership form of `hexDigit_contains`. -/
theorem hexDigit_mem : ∀ r : Fin 16, hexDigit r.val ∈ hexDigits := by
  decide

/-- Helper: membership form of `hexDigit_y_contains`. -/
theorem hexDigit_y_mem : ∀ r : Fin 16, hexDigit (r.val &&& 3 ||| 8) ∈ hexDigits := by
  decide

set_option linter.unnecessarySeqFocus false in
/-- Claim C10, confirmed: for every sequence of random draws, `generateGuid`
returns a 36-character string with hyphens at positions 8, 13, 18 and 23,
lowercase hexadecimal digits everywhere else, the character `4` at position
14, and one of `8`, `9`, `a`, `b` at position 19 — the version-4 GUID
shape. -/
theorem c10_guid_shape (rand : Nat → Fin 16) : guidShape (generateGuid rand) := by
  unfold guidShape
  rw [generateGuid_data]
  refine ⟨rfl, ?_, rfl, hexDigit_y_cases (rand 15)⟩
  intro i hi
  interval_cases i <;> simp [hexDigit_mem, hexDigit_y_mem] <;> decide
